import Mathlib

/-!
Shallow embedding of `src/firmware/src/main.cpp` (RP2040 HX711 + tacho +
ASCII protocol firmware) and verification of its specification claims.

Modelling conventions:
* Machine integers are `Nat` with explicit `% 2^w` where the C code relies
  on fixed-width wraparound (`uint32_t`, `uint64_t`, `int32_t` patterns).
* A C `float` value is represented by its 32-bit IEEE-754 bit pattern
  (a `Nat < 2^32`), exactly as it is stored in RAM and in the EEPROM
  record.  Float *arithmetic* (the RPM formula, the mass formula) is
  modelled exactly over `ℚ`; every concrete value appearing in a verified
  property is exactly representable, so the idealization is faithful there.
* The EEPROM record is the 20-byte little-endian image of `CalRecord`
  (RP2040 is little-endian); `EEPROM.put`/`EEPROM.get` become pure reads
  and writes of that byte list.
* External collaborators (HX711 acquisition, `millis`, the byte
  transport) are inputs threaded through an `Env` record, per the spec's
  "narrow contract" for them.
-/

/-! ## CRC-32 (polynomial 0xEDB88320), byte-wise, from `crc32_update` -/

/-- One shift-and-conditionally-xor round of the CRC loop body:
`mask = -(crc & 1u); crc = (crc >> 1) ^ (0xEDB88320u & mask)`.
`mask` is all-ones exactly when `crc` is odd. -/

def crcRound (crc : Nat) : Nat :=
  (crc / 2) ^^^ (if crc % 2 = 1 then 0xEDB88320 else 0)

/-- `crc32_update(crc, data)`: xor in the byte, then 8 rounds. -/

def crc32_update (crc : Nat) (b : Nat) : Nat :=
  crcRound^[8] (crc ^^^ b)

/-- `crc32_span(data, len)`: fold `crc32_update` from `0xFFFFFFFF`, then
complement (`~crc` on a `uint32_t` is `crc ^^^ 0xFFFFFFFF`). -/

def crc32_span (l : List Nat) : Nat :=
  (l.foldl crc32_update 0xFFFFFFFF) ^^^ 0xFFFFFFFF

/-- Explicit left inverse of `crcRound` on 32-bit values. -/

def crcUnround (y : Nat) : Nat :=
  if 2 ^ 31 ≤ y then 2 * (y ^^^ 0xEDB88320) + 1 else 2 * y

/-! ## Persisted calibration record (`CalRecord`, 20 bytes, little-endian) -/

def CAL_MAGIC : Nat := 0x43414C31

def CAL_VERSION : Nat := 0x00010000

/-- Little-endian 4-byte image of a 32-bit value (memory image of a
`uint32_t`/`int32_t`/`float` field on the little-endian RP2040). -/

def le4 (x : Nat) : List Nat :=
  [x % 256, x / 256 % 256, x / 65536 % 256, x / 16777216 % 256]

/-- Read back a 32-bit value from four consecutive bytes at offset `k`. -/

def de4 (e : List Nat) (k : Nat) : Nat :=
  e.getD k 0 + 256 * e.getD (k + 1) 0 + 65536 * e.getD (k + 2) 0 +
    16777216 * e.getD (k + 3) 0

/-- The first 16 bytes of the record image: the CRC input
(`sizeof(CalRecord) - sizeof(uint32_t)` bytes starting at the struct). -/

def crcInput (e : List Nat) : List Nat :=
  [e.getD 0 0, e.getD 1 0, e.getD 2 0, e.getD 3 0,
   e.getD 4 0, e.getD 5 0, e.getD 6 0, e.getD 7 0,
   e.getD 8 0, e.getD 9 0, e.getD 10 0, e.getD 11 0,
   e.getD 12 0, e.getD 13 0, e.getD 14 0, e.getD 15 0]

/-- `saveCalibrationToEEPROM(slope, tare)`: build the record with the
magic/version constants, CRC over the first 16 bytes, and write the full
20-byte image.  `slope` is the f32 bit pattern, `tare` the i32 pattern. -/

def saveCalibrationToEEPROM (slope tare : Nat) : List Nat :=
  let body := le4 CAL_MAGIC ++ le4 CAL_VERSION ++ le4 slope ++ le4 tare
  body ++ le4 (crc32_span body)

/-- `loadCalibrationFromEEPROM`: read the record, validate magic, version
and CRC; only on success return the stored slope/tare. -/

def loadCalibrationFromEEPROM (e : List Nat) : Option (Nat × Nat) :=
  if de4 e 0 ≠ CAL_MAGIC ∨ de4 e 4 ≠ CAL_VERSION then none
  else if crc32_span (crcInput e) ≠ de4 e 16 then none
  else some (de4 e 8, de4 e 12)

/-- CRC of the 16-byte body of the record built from `(s, t)`. -/

def crcBody (s t : Nat) : Nat :=
  crc32_span (le4 CAL_MAGIC ++ le4 CAL_VERSION ++ le4 s ++ le4 t)

/-- The record body (first 16 bytes) in explicit form. -/

def bodyList (s t : Nat) : List Nat :=
  [49, 76, 65, 67, 0, 0, 1, 0,
   s % 256, s / 256 % 256, s / 65536 % 256, s / 16777216 % 256,
   t % 256, t / 256 % 256, t / 65536 % 256, t / 16777216 % 256]

/-! ## IEEE-754 single precision as bit patterns

The firmware stores `float` values; we represent them by their 32-bit
pattern and convert to and from exact rationals where the code computes. -/

/-- Floor of a rational (`Int.fdiv` floors for the positive denominator). -/

def ratFloor (q : ℚ) : ℤ := q.num.fdiv q.den

/-- `2^e` as a rational, for a possibly negative exponent. -/

def pow2q (e : ℤ) : ℚ :=
  if 0 ≤ e then ((2 ^ e.toNat : ℕ) : ℚ) else 1 / ((2 ^ (-e).toNat : ℕ) : ℚ)

/-- Round a nonnegative rational to the nearest integer, ties to even. -/

def roundHalfEven (q : ℚ) : Nat :=
  let f : ℤ := ratFloor q
  let r : ℚ := q - (f : ℚ)
  (if r < 1 / 2 then f
   else if 1 / 2 < r then f + 1
   else if f % 2 = 0 then f else f + 1).toNat

/-- Largest `e ∈ [-126, 127]` with `2^e ≤ a` (used for `2^-126 ≤ a < 2^128`). -/

def expOf (a : ℚ) : ℤ :=
  -126 + (((List.range 253).filter fun j =>
    decide (pow2q (-125 + (j : ℤ)) ≤ a)).length : ℤ)

/-- Encode a rational as the nearest IEEE-754 binary32 bit pattern
(round to nearest, ties to even; overflow to infinity). -/

def f32enc (q : ℚ) : Nat :=
  (let sgn : Nat := if q < 0 then 1 else 0
   let a : ℚ := if q < 0 then -q else q
   if a = 0 then sgn * 2 ^ 31
   else if pow2q 128 ≤ a then sgn * 2 ^ 31 + 0x7F800000
   else if a < pow2q (-126) then sgn * 2 ^ 31 + roundHalfEven (a * pow2q 149)
   else
     let e : ℤ := expOf a
     let m : Nat := roundHalfEven (a * pow2q (23 - e))
     if m = 2 ^ 24 then
       if 127 < e + 1 then sgn * 2 ^ 31 + 0x7F800000
       else sgn * 2 ^ 31 + (e + 1 + 127).toNat * 2 ^ 23
     else sgn * 2 ^ 31 + (e + 127).toNat * 2 ^ 23 + (m - 2 ^ 23)) % 2 ^ 32

/-- Decode an IEEE-754 binary32 bit pattern to an exact rational
(infinities/NaNs, which the verified properties never produce, map to 0). -/

def f32dec (bits : Nat) : ℚ :=
  let b : ℕ := bits % 2 ^ 32
  let sgn : ℚ := if b / 2 ^ 31 = 1 then -1 else 1
  let e : ℕ := b / 2 ^ 23 % 256
  let f : ℕ := b % 2 ^ 23
  if e = 0 then sgn * (f : ℚ) / (2 ^ 149 : ℚ)
  else if e = 255 then 0
  else sgn * ((2 ^ 23 + f : ℕ) : ℚ) * ((2 ^ e : ℕ) : ℚ) / (2 ^ 150 : ℚ)

/-- Bit pattern of the default slope literal `0.0020f`. -/

def defSlopeBits : Nat := f32enc (2 / 1000)

/-- Signed value of an `int32_t`/`long` bit pattern. -/

def int32ToInt (p : Nat) : ℤ :=
  if p % 2 ^ 32 < 2 ^ 31 then (p % 2 ^ 32 : ℤ) else (p % 2 ^ 32 : ℤ) - 2 ^ 32

/-! ## Numeric token parsing (libc `strtoull` / `strtoul` / `atol` / `atof`)

These model the C standard library routines on an already-isolated token
(the firmware only applies them to `strtok` results, which contain no
whitespace).  A token with no leading digits parses to 0; out-of-range
magnitudes are clamped (unsigned: to the type maximum; `atol` via `strtol`
saturation), which the verified properties never exercise. -/

def parseSign : List Nat → Bool × List Nat
  | 45 :: r => (true, r)
  | 43 :: r => (false, r)
  | r => (false, r)

def parseDigitsAux : List Nat → Nat → Nat → Nat × Nat × List Nat
  | [], acc, k => (acc, k, [])
  | b :: bs, acc, k =>
      if 48 ≤ b ∧ b ≤ 57 then parseDigitsAux bs (acc * 10 + (b - 48)) (k + 1)
      else (acc, k, b :: bs)

def parseDigits (l : List Nat) : Nat × Nat × List Nat := parseDigitsAux l 0 0

def strtoull10 (tok : List Nat) : Nat :=
  let (neg, r) := parseSign tok
  let (v, _, _) := parseDigits r
  let m := min v (2 ^ 64 - 1)
  if neg then (2 ^ 64 - m) % 2 ^ 64 else m

def strtoul10 (tok : List Nat) : Nat :=
  let (neg, r) := parseSign tok
  let (v, _, _) := parseDigits r
  let m := min v (2 ^ 32 - 1)
  if neg then (2 ^ 32 - m) % 2 ^ 32 else m

def atol10 (tok : List Nat) : Nat :=
  let (neg, r) := parseSign tok
  let (v, _, _) := parseDigits r
  let c : ℤ := if neg then -(v : ℤ) else (v : ℤ)
  let cl : ℤ := max (-(2 ^ 31)) (min c (2 ^ 31 - 1))
  (cl % (2 ^ 32 : ℤ)).toNat

/-- `atof` semantics: optional sign, integer digits, optional fraction,
optional decimal exponent; no digits at all parses to 0. -/

def atofQ (tok : List Nat) : ℚ :=
  let (neg, r1) := parseSign tok
  let (ip, k1, r2) := parseDigits r1
  let (fp, k2, r3) :=
    match r2 with
    | 46 :: rest => parseDigits rest
    | _ => (0, 0, r2)
  let mant : ℚ := (ip : ℚ) + (fp : ℚ) / ((10 ^ k2 : ℕ) : ℚ)
  let ex : ℤ :=
    match r3 with
    | e :: rest =>
        if e = 101 ∨ e = 69 then
          let (negE, r4) := parseSign rest
          let (ev, kE, _) := parseDigits r4
          if kE = 0 then 0 else if negE then -(ev : ℤ) else (ev : ℤ)
        else 0
    | [] => 0
  let pw : ℚ := if 0 ≤ ex then ((10 ^ ex.toNat : ℕ) : ℚ)
    else 1 / ((10 ^ (-ex).toNat : ℕ) : ℚ)
  let v : ℚ := if k1 = 0 ∧ k2 = 0 then 0 else mant * pw
  if neg then -v else v

/-- `atof` followed by storage into a `float`: the bit pattern. -/

def atofBits (tok : List Nat) : Nat := f32enc (atofQ tok)

/-! ## Device state, environment and responses -/

/-- The firmware's mutable state: the globals of `main.cpp` plus the
EEPROM record slot (20 bytes at address 0). -/

structure DevState where
  g_per_count : Nat      -- live slope, f32 bit pattern
  tare_offset : Nat      -- live tare, i32 bit pattern (C `long`)
  epoch_base_ms : Nat    -- u64, 0 until SETTIME
  PULSES_PER_REV : Nat   -- u32, default 1
  tach_pulses_total : Nat
  last_edge_us : Nat
  last_period_us : Nat
  eeprom : List Nat      -- 20-byte record image
deriving DecidableEq

/-- Inputs from the external collaborators during one command:
the monotonic clock (`millis()`) and the HX711 acquisition outcome
(`none` = timeout, `some raw` = i32 bit pattern of the reading). -/

structure Env where
  millis : Nat
  hxRaw : Option Nat
deriving DecidableEq

/-- One response line, abstracted from its printf formatting. -/

inductive Response where
  | okPong
  | okInfo (vendor device fw : String)
  | okLoad (mass_g : ℚ) (raw : ℤ) (ts : Nat)
  | okTare
  | okSpeed (rpm period_ms : ℚ) (pulses ts : Nat)
  | okSettime
  | okSetcal
  | okCal (slope tare : Nat)
  | okResetcal
  | okSetppr
  | okPpr (ppr : Nat)
  | err (code : Nat) (msg : String)
deriving DecidableEq

/-- Timestamp field of a response, when it has one. -/

def Response.tsOf : Response → Option Nat
  | .okLoad _ _ ts => some ts
  | .okSpeed _ _ _ ts => some ts
  | _ => none

/-- `now_unix_ms()`: `epoch_base_ms + (uint64_t)millis()`, 64-bit.
`millis()` is a 32-bit unsigned value. -/

def now_unix_ms (st : DevState) (env : Env) : Nat :=
  (st.epoch_base_ms + env.millis % 2 ^ 32) % 2 ^ 64

/-! ## TachCapture -/

structure TachSnapshot where
  pulses_total : Nat
  last_period_us : Nat
deriving DecidableEq

/-- `tach_snapshot()`: atomic read of both tach fields. -/

def tach_snapshot (st : DevState) : TachSnapshot :=
  ⟨st.tach_pulses_total, st.last_period_us⟩

/-- `compute_rpm`: the source reads the global `PULSES_PER_REV`; it is
passed here as the `ppr` argument.  `float` arithmetic is modelled
exactly over `ℚ`. -/

def compute_rpm (s : TachSnapshot) (ppr : Nat) : ℚ :=
  if s.last_period_us = 0 ∨ ppr = 0 then 0
  else
    let period_s : ℚ := (s.last_period_us : ℚ) / 1000000
    if period_s ≤ 0 then 0
    else 60 * ((1 / period_s) / (ppr : ℚ))

/-- `tach_isr()`: record the edge time, count the pulse, and accept the
period only above the 100 µs glitch threshold.  `micros()` is the
32-bit `now`; `dt = now - prev` is u32 wraparound subtraction. -/

def tach_isr (st : DevState) (now : Nat) : DevState :=
  let now32 := now % 2 ^ 32
  let prev := st.last_edge_us
  let st1 := { st with last_edge_us := now32,
                       tach_pulses_total := (st.tach_pulses_total + 1) % 2 ^ 32 }
  if prev ≠ 0 then
    let dt := (now32 + 2 ^ 32 - prev) % 2 ^ 32
    if 100 < dt then { st1 with last_period_us := dt } else st1
  else st1

/-! ## Command handlers -/

def cmd_ping (st : DevState) : DevState × List Response := (st, [.okPong])

def cmd_info (st : DevState) : DevState × List Response :=
  (st, [.okInfo "ForecverBearing" "RP2040" "1.0.1"])

def cmd_load (st : DevState) (env : Env) : DevState × List Response :=
  match env.hxRaw with
  | none => (st, [.err 20 "HX711_timeout"])
  | some raw =>
      let r := raw % 2 ^ 32
      let mass_g : ℚ := ((int32ToInt r - int32ToInt st.tare_offset : ℤ) : ℚ) *
        f32dec st.g_per_count
      (st, [.okLoad mass_g (int32ToInt r) (now_unix_ms st env)])

def cmd_tare (st : DevState) (env : Env) : DevState × List Response :=
  match env.hxRaw with
  | none => (st, [.err 20 "HX711_timeout"])
  | some raw =>
      let r := raw % 2 ^ 32
      ({ st with tare_offset := r,
                 eeprom := saveCalibrationToEEPROM st.g_per_count r },
       [.okTare])

def cmd_speed (st : DevState) (env : Env) : DevState × List Response :=
  let s := tach_snapshot st
  let rpm := compute_rpm s st.PULSES_PER_REV
  let period_ms : ℚ := if s.last_period_us = 0 then 0 else (s.last_period_us : ℚ) / 1000
  (st, [.okSpeed rpm period_ms s.pulses_total (now_unix_ms st env)])

def cmd_settime (args : List (List Nat)) (st : DevState) (env : Env) :
    DevState × List Response :=
  match args with
  | [] => (st, [.err 30 "missing_unix_ms"])
  | tok :: _ =>
      ({ st with epoch_base_ms :=
          (strtoull10 tok + 2 ^ 64 - env.millis % 2 ^ 32) % 2 ^ 64 },
       [.okSettime])

def cmd_setcal (args : List (List Nat)) (st : DevState) :
    DevState × List Response :=
  match args with
  | a :: b :: _ =>
      let slope := atofBits a
      let tare := atol10 b
      ({ st with g_per_count := slope, tare_offset := tare,
                 eeprom := saveCalibrationToEEPROM slope tare },
       [.okSetcal])
  | _ => (st, [.err 31 "missing_args"])

def cmd_calq (st : DevState) : DevState × List Response :=
  (st, [.okCal st.g_per_count st.tare_offset])

/-- `resetCalibrationToDefaultsAndPersist()`. -/

def resetCalibrationToDefaultsAndPersist (st : DevState) : DevState :=
  { st with g_per_count := defSlopeBits, tare_offset := 0,
            eeprom := saveCalibrationToEEPROM defSlopeBits 0 }

def cmd_resetcal (st : DevState) : DevState × List Response :=
  (resetCalibrationToDefaultsAndPersist st, [.okResetcal])

def cmd_setppr (args : List (List Nat)) (st : DevState) :
    DevState × List Response :=
  match args with
  | [] => (st, [.err 32 "missing_ppr"])
  | tok :: _ =>
      let ppr := strtoul10 tok
      if ppr = 0 then (st, [.err 33 "invalid_ppr"])
      else ({ st with PULSES_PER_REV := ppr }, [.okSetppr])

def cmd_pprq (st : DevState) : DevState × List Response :=
  (st, [.okPpr st.PULSES_PER_REV])

/-! ## Line parsing and dispatch -/

/-- Byte string of an ASCII literal. -/

def strBytes (s : String) : List Nat := s.data.map Char.toNat

/-- `streqi`'s per-character uppercasing. -/

def upByte (b : Nat) : Nat := if 97 ≤ b ∧ b ≤ 122 then b - 32 else b

/-- Split on spaces and tabs, dropping empty fields — the token sequence
produced by the firmware's successive `strtok(…, " \t")` calls. -/

def tokenize (cs : List Nat) : List (List Nat) :=
  (cs.foldr (fun c acc =>
      if c = 32 ∨ c = 9 then [] :: acc
      else
        match acc with
        | [] => [[c]]
        | tk :: ts => (c :: tk) :: ts) [[]]).filter (fun tk => !tk.isEmpty)

/-- Strip trailing CR/LF, as `handle_line` does before tokenizing. -/

def stripCRLF (l : List Nat) : List Nat :=
  (l.reverse.dropWhile (fun b => b == 13 || b == 10)).reverse

/-- `handle_line`: trim, tokenize, dispatch on the case-insensitive
command token; empty lines produce no response. -/

def handle_line (st : DevState) (env : Env) (line : List Nat) :
    DevState × List Response :=
  match tokenize (stripCRLF line) with
  | [] => (st, [])
  | cmd :: args =>
      let c := cmd.map upByte
      if c = strBytes "PING" then cmd_ping st
      else if c = strBytes "INFO" then cmd_info st
      else if c = strBytes "LOAD?" then cmd_load st env
      else if c = strBytes "TARE" then cmd_tare st env
      else if c = strBytes "SPEED?" then cmd_speed st env
      else if c = strBytes "SETTIME" then cmd_settime args st env
      else if c = strBytes "SETCAL" then cmd_setcal args st
      else if c = strBytes "CAL?" then cmd_calq st
      else if c = strBytes "RESETCAL" then cmd_resetcal st
      else if c = strBytes "SETPPR" then cmd_setppr args st
      else if c = strBytes "PPR?" then cmd_pprq st
      else (st, [.err 10 "unknown_command"])

/-! ## Startup (`setup`) and the byte-assembly loop (`loop`) -/

/-- State of the C globals at reset, with the given EEPROM content. -/

def initialState (e : List Nat) : DevState :=
  { g_per_count := defSlopeBits, tare_offset := 0, epoch_base_ms := 0,
    PULSES_PER_REV := 1, tach_pulses_total := 0, last_edge_us := 0,
    last_period_us := 0, eeprom := e }

/-- The load-at-startup call pattern: on success apply the loaded pair to
the live calibration; on failure touch nothing. -/

def applyLoadAtBoot (st : DevState) : DevState :=
  match loadCalibrationFromEEPROM st.eeprom with
  | some (s, t) => { st with g_per_count := s, tare_offset := t }
  | none => st

/-- `setup()`: attempt the EEPROM load; on failure reset to defaults and
persist them. -/

def setup (e : List Nat) : DevState :=
  match loadCalibrationFromEEPROM e with
  | some (s, t) =>
      { initialState e with g_per_count := s, tare_offset := t }
  | none => resetCalibrationToDefaultsAndPersist (initialState e)

/-- One byte of `loop()`'s line assembler.  The accumulator holds the
current partial line (`linebuf[0..idx)`).  CR is skipped; LF dispatches
the buffer (up to the first NUL, as the C string would end there); other
bytes append while `idx < sizeof(linebuf) - 1 = 127`, else the buffer is
reset and `ERR 11` emitted. -/

def feedByte (env : Env) (s : DevState × List Nat) (c : Nat) :
    (DevState × List Nat) × List Response :=
  let (st, buf) := s
  if c = 13 then ((st, buf), [])
  else if c = 10 then
    let (st', rs) := handle_line st env (buf.takeWhile (fun b => b ≠ 0))
    ((st', []), rs)
  else if buf.length < 127 then ((st, buf ++ [c]), [])
  else ((st, []), [.err 11 "line_too_long"])

/-- Feed a byte sequence through the line assembler, collecting responses. -/

def feedBytes (env : Env) (s : DevState × List Nat) (bs : List Nat) :
    (DevState × List Nat) × List Response :=
  bs.foldl (fun acc c =>
    let (s', rs) := feedByte env acc.1 c
    (s', acc.2 ++ rs)) (s, [])

/-! ## Theorems -/

/-! ### CRC bounds and injectivity -/

theorem crcRound_lt {c : Nat} (h : c < 2 ^ 32) : crcRound c < 2 ^ 32 := by
  unfold crcRound
  apply Nat.xor_lt_two_pow (by omega)
  split <;> norm_num

/-- For `a < 2^31`, xoring the polynomial (whose top bit is set) produces a
value with the top bit set. -/

theorem xor_poly_ge {a : Nat} (h : a < 2 ^ 31) : 2 ^ 31 ≤ a ^^^ 0xEDB88320 := by
  have htop : (a ^^^ 0xEDB88320).testBit 31 = true := by
    rw [Nat.testBit_xor]
    rw [Nat.testBit_eq_false_of_lt h]
    decide
  exact Nat.testBit_implies_ge htop

theorem crcUnround_crcRound {c : Nat} (h : c < 2 ^ 32) :
    crcUnround (crcRound c) = c := by
  have hhalf : c / 2 < 2 ^ 31 := by omega
  rcases Nat.even_or_odd c with he | ho
  · have hmod : c % 2 = 0 := Nat.even_iff.mp he
    have hr : crcRound c = c / 2 := by
      unfold crcRound
      rw [if_neg (by omega)]
      exact Nat.xor_zero _
    rw [hr]
    unfold crcUnround
    rw [if_neg (by omega)]
    omega
  · have hmod : c % 2 = 1 := Nat.odd_iff.mp ho
    have hr : crcRound c = (c / 2) ^^^ 0xEDB88320 := by
      unfold crcRound
      rw [if_pos hmod]
    rw [hr]
    unfold crcUnround
    rw [if_pos (xor_poly_ge hhalf)]
    rw [Nat.xor_cancel_right]
    omega

theorem crcRound_inj {a b : Nat} (ha : a < 2 ^ 32) (hb : b < 2 ^ 32)
    (h : crcRound a = crcRound b) : a = b := by
  have := congrArg crcUnround h
  rwa [crcUnround_crcRound ha, crcUnround_crcRound hb] at this

theorem crcRound_iter_lt {c : Nat} (n : Nat) (h : c < 2 ^ 32) :
    crcRound^[n] c < 2 ^ 32 := by
  induction n generalizing c with
  | zero => simpa using h
  | succ n ih =>
      rw [Function.iterate_succ_apply]
      exact ih (crcRound_lt h)

theorem crcRound_iter_inj {a b : Nat} (n : Nat) (ha : a < 2 ^ 32)
    (hb : b < 2 ^ 32) (h : crcRound^[n] a = crcRound^[n] b) : a = b := by
  induction n generalizing a b with
  | zero => simpa using h
  | succ n ih =>
      rw [Function.iterate_succ_apply, Function.iterate_succ_apply] at h
      exact crcRound_inj ha hb (ih (crcRound_lt ha) (crcRound_lt hb) h)

theorem crc32_update_lt {c b : Nat} (hc : c < 2 ^ 32) (hb : b < 2 ^ 32) :
    crc32_update c b < 2 ^ 32 :=
  crcRound_iter_lt 8 (Nat.xor_lt_two_pow hc hb)

/-- `crc32_update` is injective in the accumulator. -/

theorem crc32_update_inj_acc {c c' b : Nat} (hc : c < 2 ^ 32)
    (hc' : c' < 2 ^ 32) (hb : b < 2 ^ 32)
    (h : crc32_update c b = crc32_update c' b) : c = c' := by
  have hx := crcRound_iter_inj 8 (Nat.xor_lt_two_pow hc hb)
    (Nat.xor_lt_two_pow hc' hb) h
  have := congrArg (· ^^^ b) hx
  simpa [Nat.xor_cancel_right] using this

/-- `crc32_update` is injective in the data byte. -/

theorem crc32_update_inj_byte {c b b' : Nat} (hc : c < 2 ^ 32)
    (hb : b < 2 ^ 32) (hb' : b' < 2 ^ 32)
    (h : crc32_update c b = crc32_update c b') : b = b' := by
  have hx := crcRound_iter_inj 8 (Nat.xor_lt_two_pow hc hb)
    (Nat.xor_lt_two_pow hc hb') h
  have := congrArg (c ^^^ ·) hx
  simpa [Nat.xor_cancel_left] using this

theorem crcFold_lt {c : Nat} (hc : c < 2 ^ 32) (l : List Nat)
    (hl : ∀ d ∈ l, d < 2 ^ 32) :
    List.foldl crc32_update c l < 2 ^ 32 := by
  induction l generalizing c with
  | nil => simpa using hc
  | cons d ds ih =>
      simp only [List.foldl_cons]
      exact ih (crc32_update_lt hc (hl d (by simp))) fun x hx => hl x (by simp [hx])

theorem crcFold_ne {c c' : Nat} (hc : c < 2 ^ 32) (hc' : c' < 2 ^ 32)
    (hne : c ≠ c') (l : List Nat) (hl : ∀ d ∈ l, d < 2 ^ 32) :
    List.foldl crc32_update c l ≠ List.foldl crc32_update c' l := by
  induction l generalizing c c' with
  | nil => simpa using hne
  | cons d ds ih =>
      simp only [List.foldl_cons]
      have hd : d < 2 ^ 32 := hl d (by simp)
      refine ih (crc32_update_lt hc hd) (crc32_update_lt hc' hd)
        (fun h => hne (crc32_update_inj_acc hc hc' hd h))
        (fun x hx => hl x (by simp [hx]))

/-- CRC-32 detects every single-byte substitution. -/

theorem crc32_span_single_byte_ne {p s : List Nat} {d d' : Nat}
    (hp : ∀ x ∈ p, x < 2 ^ 32) (hs : ∀ x ∈ s, x < 2 ^ 32)
    (hd : d < 2 ^ 32) (hd' : d' < 2 ^ 32) (hne : d ≠ d') :
    crc32_span (p ++ d :: s) ≠ crc32_span (p ++ d' :: s) := by
  unfold crc32_span
  intro h
  have h2 : List.foldl crc32_update 0xFFFFFFFF (p ++ d :: s) =
      List.foldl crc32_update 0xFFFFFFFF (p ++ d' :: s) := by
    have := congrArg (· ^^^ 0xFFFFFFFF) h
    simpa [Nat.xor_cancel_right] using this
  rw [List.foldl_append, List.foldl_append] at h2
  simp only [List.foldl_cons] at h2
  have hcacc : List.foldl crc32_update 0xFFFFFFFF p < 2 ^ 32 :=
    crcFold_lt (by norm_num) p hp
  have hstart : crc32_update (List.foldl crc32_update 0xFFFFFFFF p) d ≠
      crc32_update (List.foldl crc32_update 0xFFFFFFFF p) d' :=
    fun hh => hne (crc32_update_inj_byte hcacc hd hd' hh)
  exact crcFold_ne (crc32_update_lt hcacc hd) (crc32_update_lt hcacc hd')
    hstart s hs h2

theorem crc32_span_lt (l : List Nat) (hl : ∀ d ∈ l, d < 2 ^ 32) :
    crc32_span l < 2 ^ 32 :=
  Nat.xor_lt_two_pow (crcFold_lt (by norm_num) l hl) (by norm_num)

/-! ### Record helper lemmas -/

theorem le4_bytes_lt (x : Nat) : ∀ b ∈ le4 x, b < 256 := by
  intro b hb
  simp only [le4, List.mem_cons, List.not_mem_nil, or_false] at hb
  rcases hb with h | h | h | h <;> omega

/-- The explicit 20-byte image produced by `saveCalibrationToEEPROM`. -/

theorem save_eq_explicit (s t : Nat) :
    saveCalibrationToEEPROM s t =
      [0x31, 0x4C, 0x41, 0x43, 0x00, 0x00, 0x01, 0x00,
       s % 256, s / 256 % 256, s / 65536 % 256, s / 16777216 % 256,
       t % 256, t / 256 % 256, t / 65536 % 256, t / 16777216 % 256,
       crcBody s t % 256, crcBody s t / 256 % 256,
       crcBody s t / 65536 % 256, crcBody s t / 16777216 % 256] := by
  rfl

theorem save_length (s t : Nat) : (saveCalibrationToEEPROM s t).length = 20 := by
  rw [save_eq_explicit]; rfl

theorem save_body_bytes_lt (s t : Nat) :
    ∀ x ∈ le4 CAL_MAGIC ++ le4 CAL_VERSION ++ le4 s ++ le4 t, x < 2 ^ 32 := by
  intro x hx
  simp only [List.mem_append] at hx
  rcases hx with ((h | h) | h) | h <;>
    exact lt_trans (le4_bytes_lt _ _ h) (by norm_num)

theorem crcBody_lt (s t : Nat) : crcBody s t < 2 ^ 32 :=
  crc32_span_lt _ (save_body_bytes_lt s t)

/-- Round trip: loading the image written by `save` always validates and
returns the stored pair (reduced to 32 bits). -/

theorem load_save (s t : Nat) :
    loadCalibrationFromEEPROM (saveCalibrationToEEPROM s t) =
      some (s % 2 ^ 32, t % 2 ^ 32) := by
  have hC : crcBody s t < 2 ^ 32 := crcBody_lt s t
  have g0 : (saveCalibrationToEEPROM s t).getD 0 0 = 0x31 := rfl
  have g1 : (saveCalibrationToEEPROM s t).getD 1 0 = 0x4C := rfl
  have g2 : (saveCalibrationToEEPROM s t).getD 2 0 = 0x41 := rfl
  have g3 : (saveCalibrationToEEPROM s t).getD 3 0 = 0x43 := rfl
  have g4 : (saveCalibrationToEEPROM s t).getD 4 0 = 0x00 := rfl
  have g5 : (saveCalibrationToEEPROM s t).getD 5 0 = 0x00 := rfl
  have g6 : (saveCalibrationToEEPROM s t).getD 6 0 = 0x01 := rfl
  have g7 : (saveCalibrationToEEPROM s t).getD 7 0 = 0x00 := rfl
  have g8 : (saveCalibrationToEEPROM s t).getD 8 0 = s % 256 := rfl
  have g9 : (saveCalibrationToEEPROM s t).getD 9 0 = s / 256 % 256 := rfl
  have g10 : (saveCalibrationToEEPROM s t).getD 10 0 = s / 65536 % 256 := rfl
  have g11 : (saveCalibrationToEEPROM s t).getD 11 0 = s / 16777216 % 256 := rfl
  have g12 : (saveCalibrationToEEPROM s t).getD 12 0 = t % 256 := rfl
  have g13 : (saveCalibrationToEEPROM s t).getD 13 0 = t / 256 % 256 := rfl
  have g14 : (saveCalibrationToEEPROM s t).getD 14 0 = t / 65536 % 256 := rfl
  have g15 : (saveCalibrationToEEPROM s t).getD 15 0 = t / 16777216 % 256 := rfl
  have g16 : (saveCalibrationToEEPROM s t).getD 16 0 = crcBody s t % 256 := rfl
  have g17 : (saveCalibrationToEEPROM s t).getD 17 0 = crcBody s t / 256 % 256 := rfl
  have g18 : (saveCalibrationToEEPROM s t).getD 18 0 = crcBody s t / 65536 % 256 := rfl
  have g19 : (saveCalibrationToEEPROM s t).getD 19 0 = crcBody s t / 16777216 % 256 := rfl
  have hmagic : de4 (saveCalibrationToEEPROM s t) 0 = CAL_MAGIC := by
    simp only [de4]
    rw [g0, g1, g2, g3]
    norm_num [CAL_MAGIC]
  have hver : de4 (saveCalibrationToEEPROM s t) 4 = CAL_VERSION := by
    simp only [de4]
    rw [show (4 + 1 : Nat) = 5 from rfl, show (4 + 2 : Nat) = 6 from rfl,
      show (4 + 3 : Nat) = 7 from rfl, g4, g5, g6, g7]
    norm_num [CAL_VERSION]
  have hslope : de4 (saveCalibrationToEEPROM s t) 8 = s % 2 ^ 32 := by
    simp only [de4]
    rw [show (8 + 1 : Nat) = 9 from rfl, show (8 + 2 : Nat) = 10 from rfl,
      show (8 + 3 : Nat) = 11 from rfl, g8, g9, g10, g11]
    omega
  have htare : de4 (saveCalibrationToEEPROM s t) 12 = t % 2 ^ 32 := by
    simp only [de4]
    rw [show (12 + 1 : Nat) = 13 from rfl, show (12 + 2 : Nat) = 14 from rfl,
      show (12 + 3 : Nat) = 15 from rfl, g12, g13, g14, g15]
    omega
  have hstored : de4 (saveCalibrationToEEPROM s t) 16 = crcBody s t := by
    simp only [de4]
    rw [show (16 + 1 : Nat) = 17 from rfl, show (16 + 2 : Nat) = 18 from rfl,
      show (16 + 3 : Nat) = 19 from rfl, g16, g17, g18, g19]
    omega
  have hcrcIn : crcInput (saveCalibrationToEEPROM s t) =
      [49, 76, 65, 67, 0, 0, 1, 0,
       s % 256, s / 256 % 256, s / 65536 % 256, s / 16777216 % 256,
       t % 256, t / 256 % 256, t / 65536 % 256, t / 16777216 % 256] := by
    simp only [crcInput]
    rw [g0, g1, g2, g3, g4, g5, g6, g7, g8, g9, g10, g11, g12, g13, g14, g15]
  have hbody : le4 CAL_MAGIC ++ le4 CAL_VERSION ++ le4 s ++ le4 t =
      [49, 76, 65, 67, 0, 0, 1, 0,
       s % 256, s / 256 % 256, s / 65536 % 256, s / 16777216 % 256,
       t % 256, t / 256 % 256, t / 65536 % 256, t / 16777216 % 256] := by
    norm_num [le4, CAL_MAGIC, CAL_VERSION]
  have hspan : crc32_span (le4 CAL_MAGIC ++ le4 CAL_VERSION ++ le4 s ++ le4 t) =
      crcBody s t := rfl
  unfold loadCalibrationFromEEPROM
  rw [if_neg (by push_neg; exact ⟨hmagic, hver⟩)]
  rw [if_neg (by rw [hcrcIn, ← hbody, hspan, hstored]; omega)]
  rw [hslope, htare]

/-- Decompose a list around position `i`. -/

theorem take_getD_drop (l : List Nat) (i : Nat) (hi : i < l.length) :
    l = l.take i ++ l.getD i 0 :: l.drop (i + 1) := by
  induction l generalizing i with
  | nil => simp at hi
  | cons a as ih =>
      cases i with
      | zero => simp [List.getD]
      | succ n =>
          simp only [List.take_succ_cons, List.drop_succ_cons, List.getD_cons_succ,
            List.cons_append, List.cons.injEq, true_and]
          exact ih n (by simpa using hi)

/-- Replacing any in-range byte of `l` with a different value changes its
CRC-32. -/

theorem crc32_span_set_ne (l : List Nat) (i v : Nat) (hi : i < l.length)
    (hl : ∀ x ∈ l, x < 2 ^ 32) (hv : v < 2 ^ 32) (hne : v ≠ l.getD i 0) :
    crc32_span (l.set i v) ≠ crc32_span l := by
  have hset : l.set i v = l.take i ++ v :: l.drop (i + 1) :=
    List.set_eq_take_cons_drop v hi
  have horig : l = l.take i ++ l.getD i 0 :: l.drop (i + 1) := take_getD_drop l i hi
  have hmem : l.getD i 0 ∈ l := by
    rw [List.getD_eq_getElem?_getD, List.getElem?_eq_getElem hi]
    simpa using List.getElem_mem hi
  rw [hset]
  conv_rhs => rw [horig]
  exact crc32_span_single_byte_ne
    (fun x hx => hl x (List.mem_of_mem_take hx))
    (fun x hx => hl x (List.mem_of_mem_drop hx))
    hv (hl _ hmem) hne

theorem saveByte0 (s t : Nat) : (saveCalibrationToEEPROM s t).getD 0 0 = 49 := rfl

theorem saveByte1 (s t : Nat) : (saveCalibrationToEEPROM s t).getD 1 0 = 76 := rfl

theorem saveByte2 (s t : Nat) : (saveCalibrationToEEPROM s t).getD 2 0 = 65 := rfl

theorem saveByte3 (s t : Nat) : (saveCalibrationToEEPROM s t).getD 3 0 = 67 := rfl

theorem saveByte4 (s t : Nat) : (saveCalibrationToEEPROM s t).getD 4 0 = 0 := rfl

theorem saveByte5 (s t : Nat) : (saveCalibrationToEEPROM s t).getD 5 0 = 0 := rfl

theorem saveByte6 (s t : Nat) : (saveCalibrationToEEPROM s t).getD 6 0 = 1 := rfl

theorem saveByte7 (s t : Nat) : (saveCalibrationToEEPROM s t).getD 7 0 = 0 := rfl

theorem saveByte8 (s t : Nat) : (saveCalibrationToEEPROM s t).getD 8 0 = s % 256 := rfl

theorem saveByte9 (s t : Nat) : (saveCalibrationToEEPROM s t).getD 9 0 = s / 256 % 256 := rfl

theorem saveByte10 (s t : Nat) : (saveCalibrationToEEPROM s t).getD 10 0 = s / 65536 % 256 := rfl

theorem saveByte11 (s t : Nat) : (saveCalibrationToEEPROM s t).getD 11 0 = s / 16777216 % 256 := rfl

theorem saveByte12 (s t : Nat) : (saveCalibrationToEEPROM s t).getD 12 0 = t % 256 := rfl

theorem saveByte13 (s t : Nat) : (saveCalibrationToEEPROM s t).getD 13 0 = t / 256 % 256 := rfl

theorem saveByte14 (s t : Nat) : (saveCalibrationToEEPROM s t).getD 14 0 = t / 65536 % 256 := rfl

theorem saveByte15 (s t : Nat) : (saveCalibrationToEEPROM s t).getD 15 0 = t / 16777216 % 256 := rfl

theorem saveByte16 (s t : Nat) : (saveCalibrationToEEPROM s t).getD 16 0 = crcBody s t % 256 := rfl

theorem saveByte17 (s t : Nat) : (saveCalibrationToEEPROM s t).getD 17 0 = crcBody s t / 256 % 256 := rfl

theorem saveByte18 (s t : Nat) : (saveCalibrationToEEPROM s t).getD 18 0 = crcBody s t / 65536 % 256 := rfl

theorem saveByte19 (s t : Nat) : (saveCalibrationToEEPROM s t).getD 19 0 = crcBody s t / 16777216 % 256 := rfl

theorem body_append_eq (s t : Nat) :
    le4 CAL_MAGIC ++ le4 CAL_VERSION ++ le4 s ++ le4 t = bodyList s t := by
  norm_num [le4, CAL_MAGIC, CAL_VERSION, bodyList]

theorem crcBody_span (s t : Nat) : crcBody s t = crc32_span (bodyList s t) := by
  rw [crcBody, body_append_eq]

theorem bodyList_bytes_lt (s t : Nat) : ∀ x ∈ bodyList s t, x < 2 ^ 32 := by
  intro x hx
  simp only [bodyList, List.mem_cons, List.not_mem_nil, or_false] at hx
  rcases hx with h|h|h|h|h|h|h|h|h|h|h|h|h|h|h|h <;> omega

theorem crcInput_save (s t : Nat) :
    crcInput (saveCalibrationToEEPROM s t) = bodyList s t := by
  simp only [crcInput, bodyList]
  rw [saveByte0, saveByte1, saveByte2, saveByte3, saveByte4, saveByte5,
    saveByte6, saveByte7, saveByte8, saveByte9, saveByte10, saveByte11,
    saveByte12, saveByte13, saveByte14, saveByte15]

theorem loadCal_explicit (b0 b1 b2 b3 b4 b5 b6 b7 b8 b9 b10 b11 b12 b13 b14 b15 b16 b17 b18 b19 : Nat) :
    loadCalibrationFromEEPROM
      [b0, b1, b2, b3, b4, b5, b6, b7, b8, b9, b10, b11, b12, b13, b14, b15, b16, b17, b18, b19] =
      (if b0 + 256 * b1 + 65536 * b2 + 16777216 * b3 ≠ CAL_MAGIC ∨
          b4 + 256 * b5 + 65536 * b6 + 16777216 * b7 ≠ CAL_VERSION then none
       else if crc32_span [b0, b1, b2, b3, b4, b5, b6, b7, b8, b9, b10, b11, b12, b13, b14, b15] ≠
          b16 + 256 * b17 + 65536 * b18 + 16777216 * b19 then none
       else some (b8 + 256 * b9 + 65536 * b10 + 16777216 * b11,
                  b12 + 256 * b13 + 65536 * b14 + 16777216 * b15)) := rfl

/-- `loadCalibrationFromEEPROM` rejects the image written by `save` after
any single-byte substitution; helper for the corruption claim. -/

theorem load_save_set_none (s t i v : Nat) (hi : i < 20) (hv : v < 256)
    (hne : v ≠ (saveCalibrationToEEPROM s t).getD i 0) :
    loadCalibrationFromEEPROM ((saveCalibrationToEEPROM s t).set i v) = none := by
  have hC : crcBody s t < 2 ^ 32 := crcBody_lt s t
  interval_cases i
  · rw [saveByte0] at hne
    rw [save_eq_explicit]
    show loadCalibrationFromEEPROM
      [v, 76, 65, 67,
       0, 0, 1, 0,
       s % 256, s / 256 % 256, s / 65536 % 256, s / 16777216 % 256,
       t % 256, t / 256 % 256, t / 65536 % 256, t / 16777216 % 256,
       crcBody s t % 256, crcBody s t / 256 % 256, crcBody s t / 65536 % 256, crcBody s t / 16777216 % 256] = none
    rw [loadCal_explicit]
    rw [if_pos (Or.inl (by simp only [CAL_MAGIC]; omega))]
  · rw [saveByte1] at hne
    rw [save_eq_explicit]
    show loadCalibrationFromEEPROM
      [49, v, 65, 67,
       0, 0, 1, 0,
       s % 256, s / 256 % 256, s / 65536 % 256, s / 16777216 % 256,
       t % 256, t / 256 % 256, t / 65536 % 256, t / 16777216 % 256,
       crcBody s t % 256, crcBody s t / 256 % 256, crcBody s t / 65536 % 256, crcBody s t / 16777216 % 256] = none
    rw [loadCal_explicit]
    rw [if_pos (Or.inl (by simp only [CAL_MAGIC]; omega))]
  · rw [saveByte2] at hne
    rw [save_eq_explicit]
    show loadCalibrationFromEEPROM
      [49, 76, v, 67,
       0, 0, 1, 0,
       s % 256, s / 256 % 256, s / 65536 % 256, s / 16777216 % 256,
       t % 256, t / 256 % 256, t / 65536 % 256, t / 16777216 % 256,
       crcBody s t % 256, crcBody s t / 256 % 256, crcBody s t / 65536 % 256, crcBody s t / 16777216 % 256] = none
    rw [loadCal_explicit]
    rw [if_pos (Or.inl (by simp only [CAL_MAGIC]; omega))]
  · rw [saveByte3] at hne
    rw [save_eq_explicit]
    show loadCalibrationFromEEPROM
      [49, 76, 65, v,
       0, 0, 1, 0,
       s % 256, s / 256 % 256, s / 65536 % 256, s / 16777216 % 256,
       t % 256, t / 256 % 256, t / 65536 % 256, t / 16777216 % 256,
       crcBody s t % 256, crcBody s t / 256 % 256, crcBody s t / 65536 % 256, crcBody s t / 16777216 % 256] = none
    rw [loadCal_explicit]
    rw [if_pos (Or.inl (by simp only [CAL_MAGIC]; omega))]
  · rw [saveByte4] at hne
    rw [save_eq_explicit]
    show loadCalibrationFromEEPROM
      [49, 76, 65, 67,
       v, 0, 1, 0,
       s % 256, s / 256 % 256, s / 65536 % 256, s / 16777216 % 256,
       t % 256, t / 256 % 256, t / 65536 % 256, t / 16777216 % 256,
       crcBody s t % 256, crcBody s t / 256 % 256, crcBody s t / 65536 % 256, crcBody s t / 16777216 % 256] = none
    rw [loadCal_explicit]
    rw [if_pos (Or.inr (by simp only [CAL_VERSION]; omega))]
  · rw [saveByte5] at hne
    rw [save_eq_explicit]
    show loadCalibrationFromEEPROM
      [49, 76, 65, 67,
       0, v, 1, 0,
       s % 256, s / 256 % 256, s / 65536 % 256, s / 16777216 % 256,
       t % 256, t / 256 % 256, t / 65536 % 256, t / 16777216 % 256,
       crcBody s t % 256, crcBody s t / 256 % 256, crcBody s t / 65536 % 256, crcBody s t / 16777216 % 256] = none
    rw [loadCal_explicit]
    rw [if_pos (Or.inr (by simp only [CAL_VERSION]; omega))]
  · rw [saveByte6] at hne
    rw [save_eq_explicit]
    show loadCalibrationFromEEPROM
      [49, 76, 65, 67,
       0, 0, v, 0,
       s % 256, s / 256 % 256, s / 65536 % 256, s / 16777216 % 256,
       t % 256, t / 256 % 256, t / 65536 % 256, t / 16777216 % 256,
       crcBody s t % 256, crcBody s t / 256 % 256, crcBody s t / 65536 % 256, crcBody s t / 16777216 % 256] = none
    rw [loadCal_explicit]
    rw [if_pos (Or.inr (by simp only [CAL_VERSION]; omega))]
  · rw [saveByte7] at hne
    rw [save_eq_explicit]
    show loadCalibrationFromEEPROM
      [49, 76, 65, 67,
       0, 0, 1, v,
       s % 256, s / 256 % 256, s / 65536 % 256, s / 16777216 % 256,
       t % 256, t / 256 % 256, t / 65536 % 256, t / 16777216 % 256,
       crcBody s t % 256, crcBody s t / 256 % 256, crcBody s t / 65536 % 256, crcBody s t / 16777216 % 256] = none
    rw [loadCal_explicit]
    rw [if_pos (Or.inr (by simp only [CAL_VERSION]; omega))]
  · rw [saveByte8] at hne
    rw [save_eq_explicit]
    show loadCalibrationFromEEPROM
      [49, 76, 65, 67,
       0, 0, 1, 0,
       v, s / 256 % 256, s / 65536 % 256, s / 16777216 % 256,
       t % 256, t / 256 % 256, t / 65536 % 256, t / 16777216 % 256,
       crcBody s t % 256, crcBody s t / 256 % 256, crcBody s t / 65536 % 256, crcBody s t / 16777216 % 256] = none
    rw [loadCal_explicit]
    rw [if_neg (by
      push_neg
      constructor <;> [simp only [CAL_MAGIC]; simp only [CAL_VERSION]] <;> omega)]
    rw [if_pos]
    have hst : crcBody s t % 256 + 256 * (crcBody s t / 256 % 256) +
        65536 * (crcBody s t / 65536 % 256) +
        16777216 * (crcBody s t / 16777216 % 256) = crcBody s t := by omega
    rw [hst, crcBody_span]
    rw [show ([49, 76, 65, 67,
            0, 0, 1, 0,
            v, s / 256 % 256, s / 65536 % 256, s / 16777216 % 256,
            t % 256, t / 256 % 256, t / 65536 % 256, t / 16777216 % 256] : List Nat) = (bodyList s t).set 8 v from rfl]
    exact crc32_span_set_ne (bodyList s t) 8 v (by simp [bodyList])
      (bodyList_bytes_lt s t) (by omega)
      (by rw [show (bodyList s t).getD 8 0 = s % 256 from rfl]; exact hne)
  · rw [saveByte9] at hne
    rw [save_eq_explicit]
    show loadCalibrationFromEEPROM
      [49, 76, 65, 67,
       0, 0, 1, 0,
       s % 256, v, s / 65536 % 256, s / 16777216 % 256,
       t % 256, t / 256 % 256, t / 65536 % 256, t / 16777216 % 256,
       crcBody s t % 256, crcBody s t / 256 % 256, crcBody s t / 65536 % 256, crcBody s t / 16777216 % 256] = none
    rw [loadCal_explicit]
    rw [if_neg (by
      push_neg
      constructor <;> [simp only [CAL_MAGIC]; simp only [CAL_VERSION]] <;> omega)]
    rw [if_pos]
    have hst : crcBody s t % 256 + 256 * (crcBody s t / 256 % 256) +
        65536 * (crcBody s t / 65536 % 256) +
        16777216 * (crcBody s t / 16777216 % 256) = crcBody s t := by omega
    rw [hst, crcBody_span]
    rw [show ([49, 76, 65, 67,
            0, 0, 1, 0,
            s % 256, v, s / 65536 % 256, s / 16777216 % 256,
            t % 256, t / 256 % 256, t / 65536 % 256, t / 16777216 % 256] : List Nat) = (bodyList s t).set 9 v from rfl]
    exact crc32_span_set_ne (bodyList s t) 9 v (by simp [bodyList])
      (bodyList_bytes_lt s t) (by omega)
      (by rw [show (bodyList s t).getD 9 0 = s / 256 % 256 from rfl]; exact hne)
  · rw [saveByte10] at hne
    rw [save_eq_explicit]
    show loadCalibrationFromEEPROM
      [49, 76, 65, 67,
       0, 0, 1, 0,
       s % 256, s / 256 % 256, v, s / 16777216 % 256,
       t % 256, t / 256 % 256, t / 65536 % 256, t / 16777216 % 256,
       crcBody s t % 256, crcBody s t / 256 % 256, crcBody s t / 65536 % 256, crcBody s t / 16777216 % 256] = none
    rw [loadCal_explicit]
    rw [if_neg (by
      push_neg
      constructor <;> [simp only [CAL_MAGIC]; simp only [CAL_VERSION]] <;> omega)]
    rw [if_pos]
    have hst : crcBody s t % 256 + 256 * (crcBody s t / 256 % 256) +
        65536 * (crcBody s t / 65536 % 256) +
        16777216 * (crcBody s t / 16777216 % 256) = crcBody s t := by omega
    rw [hst, crcBody_span]
    rw [show ([49, 76, 65, 67,
            0, 0, 1, 0,
            s % 256, s / 256 % 256, v, s / 16777216 % 256,
            t % 256, t / 256 % 256, t / 65536 % 256, t / 16777216 % 256] : List Nat) = (bodyList s t).set 10 v from rfl]
    exact crc32_span_set_ne (bodyList s t) 10 v (by simp [bodyList])
      (bodyList_bytes_lt s t) (by omega)
      (by rw [show (bodyList s t).getD 10 0 = s / 65536 % 256 from rfl]; exact hne)
  · rw [saveByte11] at hne
    rw [save_eq_explicit]
    show loadCalibrationFromEEPROM
      [49, 76, 65, 67,
       0, 0, 1, 0,
       s % 256, s / 256 % 256, s / 65536 % 256, v,
       t % 256, t / 256 % 256, t / 65536 % 256, t / 16777216 % 256,
       crcBody s t % 256, crcBody s t / 256 % 256, crcBody s t / 65536 % 256, crcBody s t / 16777216 % 256] = none
    rw [loadCal_explicit]
    rw [if_neg (by
      push_neg
      constructor <;> [simp only [CAL_MAGIC]; simp only [CAL_VERSION]] <;> omega)]
    rw [if_pos]
    have hst : crcBody s t % 256 + 256 * (crcBody s t / 256 % 256) +
        65536 * (crcBody s t / 65536 % 256) +
        16777216 * (crcBody s t / 16777216 % 256) = crcBody s t := by omega
    rw [hst, crcBody_span]
    rw [show ([49, 76, 65, 67,
            0, 0, 1, 0,
            s % 256, s / 256 % 256, s / 65536 % 256, v,
            t % 256, t / 256 % 256, t / 65536 % 256, t / 16777216 % 256] : List Nat) = (bodyList s t).set 11 v from rfl]
    exact crc32_span_set_ne (bodyList s t) 11 v (by simp [bodyList])
      (bodyList_bytes_lt s t) (by omega)
      (by rw [show (bodyList s t).getD 11 0 = s / 16777216 % 256 from rfl]; exact hne)
  · rw [saveByte12] at hne
    rw [save_eq_explicit]
    show loadCalibrationFromEEPROM
      [49, 76, 65, 67,
       0, 0, 1, 0,
       s % 256, s / 256 % 256, s / 65536 % 256, s / 16777216 % 256,
       v, t / 256 % 256, t / 65536 % 256, t / 16777216 % 256,
       crcBody s t % 256, crcBody s t / 256 % 256, crcBody s t / 65536 % 256, crcBody s t / 16777216 % 256] = none
    rw [loadCal_explicit]
    rw [if_neg (by
      push_neg
      constructor <;> [simp only [CAL_MAGIC]; simp only [CAL_VERSION]] <;> omega)]
    rw [if_pos]
    have hst : crcBody s t % 256 + 256 * (crcBody s t / 256 % 256) +
        65536 * (crcBody s t / 65536 % 256) +
        16777216 * (crcBody s t / 16777216 % 256) = crcBody s t := by omega
    rw [hst, crcBody_span]
    rw [show ([49, 76, 65, 67,
            0, 0, 1, 0,
            s % 256, s / 256 % 256, s / 65536 % 256, s / 16777216 % 256,
            v, t / 256 % 256, t / 65536 % 256, t / 16777216 % 256] : List Nat) = (bodyList s t).set 12 v from rfl]
    exact crc32_span_set_ne (bodyList s t) 12 v (by simp [bodyList])
      (bodyList_bytes_lt s t) (by omega)
      (by rw [show (bodyList s t).getD 12 0 = t % 256 from rfl]; exact hne)
  · rw [saveByte13] at hne
    rw [save_eq_explicit]
    show loadCalibrationFromEEPROM
      [49, 76, 65, 67,
       0, 0, 1, 0,
       s % 256, s / 256 % 256, s / 65536 % 256, s / 16777216 % 256,
       t % 256, v, t / 65536 % 256, t / 16777216 % 256,
       crcBody s t % 256, crcBody s t / 256 % 256, crcBody s t / 65536 % 256, crcBody s t / 16777216 % 256] = none
    rw [loadCal_explicit]
    rw [if_neg (by
      push_neg
      constructor <;> [simp only [CAL_MAGIC]; simp only [CAL_VERSION]] <;> omega)]
    rw [if_pos]
    have hst : crcBody s t % 256 + 256 * (crcBody s t / 256 % 256) +
        65536 * (crcBody s t / 65536 % 256) +
        16777216 * (crcBody s t / 16777216 % 256) = crcBody s t := by omega
    rw [hst, crcBody_span]
    rw [show ([49, 76, 65, 67,
            0, 0, 1, 0,
            s % 256, s / 256 % 256, s / 65536 % 256, s / 16777216 % 256,
            t % 256, v, t / 65536 % 256, t / 16777216 % 256] : List Nat) = (bodyList s t).set 13 v from rfl]
    exact crc32_span_set_ne (bodyList s t) 13 v (by simp [bodyList])
      (bodyList_bytes_lt s t) (by omega)
      (by rw [show (bodyList s t).getD 13 0 = t / 256 % 256 from rfl]; exact hne)
  · rw [saveByte14] at hne
    rw [save_eq_explicit]
    show loadCalibrationFromEEPROM
      [49, 76, 65, 67,
       0, 0, 1, 0,
       s % 256, s / 256 % 256, s / 65536 % 256, s / 16777216 % 256,
       t % 256, t / 256 % 256, v, t / 16777216 % 256,
       crcBody s t % 256, crcBody s t / 256 % 256, crcBody s t / 65536 % 256, crcBody s t / 16777216 % 256] = none
    rw [loadCal_explicit]
    rw [if_neg (by
      push_neg
      constructor <;> [simp only [CAL_MAGIC]; simp only [CAL_VERSION]] <;> omega)]
    rw [if_pos]
    have hst : crcBody s t % 256 + 256 * (crcBody s t / 256 % 256) +
        65536 * (crcBody s t / 65536 % 256) +
        16777216 * (crcBody s t / 16777216 % 256) = crcBody s t := by omega
    rw [hst, crcBody_span]
    rw [show ([49, 76, 65, 67,
            0, 0, 1, 0,
            s % 256, s / 256 % 256, s / 65536 % 256, s / 16777216 % 256,
            t % 256, t / 256 % 256, v, t / 16777216 % 256] : List Nat) = (bodyList s t).set 14 v from rfl]
    exact crc32_span_set_ne (bodyList s t) 14 v (by simp [bodyList])
      (bodyList_bytes_lt s t) (by omega)
      (by rw [show (bodyList s t).getD 14 0 = t / 65536 % 256 from rfl]; exact hne)
  · rw [saveByte15] at hne
    rw [save_eq_explicit]
    show loadCalibrationFromEEPROM
      [49, 76, 65, 67,
       0, 0, 1, 0,
       s % 256, s / 256 % 256, s / 65536 % 256, s / 16777216 % 256,
       t % 256, t / 256 % 256, t / 65536 % 256, v,
       crcBody s t % 256, crcBody s t / 256 % 256, crcBody s t / 65536 % 256, crcBody s t / 16777216 % 256] = none
    rw [loadCal_explicit]
    rw [if_neg (by
      push_neg
      constructor <;> [simp only [CAL_MAGIC]; simp only [CAL_VERSION]] <;> omega)]
    rw [if_pos]
    have hst : crcBody s t % 256 + 256 * (crcBody s t / 256 % 256) +
        65536 * (crcBody s t / 65536 % 256) +
        16777216 * (crcBody s t / 16777216 % 256) = crcBody s t := by omega
    rw [hst, crcBody_span]
    rw [show ([49, 76, 65, 67,
            0, 0, 1, 0,
            s % 256, s / 256 % 256, s / 65536 % 256, s / 16777216 % 256,
            t % 256, t / 256 % 256, t / 65536 % 256, v] : List Nat) = (bodyList s t).set 15 v from rfl]
    exact crc32_span_set_ne (bodyList s t) 15 v (by simp [bodyList])
      (bodyList_bytes_lt s t) (by omega)
      (by rw [show (bodyList s t).getD 15 0 = t / 16777216 % 256 from rfl]; exact hne)
  · rw [saveByte16] at hne
    rw [save_eq_explicit]
    show loadCalibrationFromEEPROM
      [49, 76, 65, 67,
       0, 0, 1, 0,
       s % 256, s / 256 % 256, s / 65536 % 256, s / 16777216 % 256,
       t % 256, t / 256 % 256, t / 65536 % 256, t / 16777216 % 256,
       v, crcBody s t / 256 % 256, crcBody s t / 65536 % 256, crcBody s t / 16777216 % 256] = none
    rw [loadCal_explicit]
    rw [if_neg (by
      push_neg
      constructor <;> [simp only [CAL_MAGIC]; simp only [CAL_VERSION]] <;> omega)]
    rw [if_pos]
    rw [show ([49, 76, 65, 67,
            0, 0, 1, 0,
            s % 256, s / 256 % 256, s / 65536 % 256, s / 16777216 % 256,
            t % 256, t / 256 % 256, t / 65536 % 256, t / 16777216 % 256] : List Nat) = bodyList s t from rfl]
    rw [← crcBody_span]
    omega
  · rw [saveByte17] at hne
    rw [save_eq_explicit]
    show loadCalibrationFromEEPROM
      [49, 76, 65, 67,
       0, 0, 1, 0,
       s % 256, s / 256 % 256, s / 65536 % 256, s / 16777216 % 256,
       t % 256, t / 256 % 256, t / 65536 % 256, t / 16777216 % 256,
       crcBody s t % 256, v, crcBody s t / 65536 % 256, crcBody s t / 16777216 % 256] = none
    rw [loadCal_explicit]
    rw [if_neg (by
      push_neg
      constructor <;> [simp only [CAL_MAGIC]; simp only [CAL_VERSION]] <;> omega)]
    rw [if_pos]
    rw [show ([49, 76, 65, 67,
            0, 0, 1, 0,
            s % 256, s / 256 % 256, s / 65536 % 256, s / 16777216 % 256,
            t % 256, t / 256 % 256, t / 65536 % 256, t / 16777216 % 256] : List Nat) = bodyList s t from rfl]
    rw [← crcBody_span]
    omega
  · rw [saveByte18] at hne
    rw [save_eq_explicit]
    show loadCalibrationFromEEPROM
      [49, 76, 65, 67,
       0, 0, 1, 0,
       s % 256, s / 256 % 256, s / 65536 % 256, s / 16777216 % 256,
       t % 256, t / 256 % 256, t / 65536 % 256, t / 16777216 % 256,
       crcBody s t % 256, crcBody s t / 256 % 256, v, crcBody s t / 16777216 % 256] = none
    rw [loadCal_explicit]
    rw [if_neg (by
      push_neg
      constructor <;> [simp only [CAL_MAGIC]; simp only [CAL_VERSION]] <;> omega)]
    rw [if_pos]
    rw [show ([49, 76, 65, 67,
            0, 0, 1, 0,
            s % 256, s / 256 % 256, s / 65536 % 256, s / 16777216 % 256,
            t % 256, t / 256 % 256, t / 65536 % 256, t / 16777216 % 256] : List Nat) = bodyList s t from rfl]
    rw [← crcBody_span]
    omega
  · rw [saveByte19] at hne
    rw [save_eq_explicit]
    show loadCalibrationFromEEPROM
      [49, 76, 65, 67,
       0, 0, 1, 0,
       s % 256, s / 256 % 256, s / 65536 % 256, s / 16777216 % 256,
       t % 256, t / 256 % 256, t / 65536 % 256, t / 16777216 % 256,
       crcBody s t % 256, crcBody s t / 256 % 256, crcBody s t / 65536 % 256, v] = none
    rw [loadCal_explicit]
    rw [if_neg (by
      push_neg
      constructor <;> [simp only [CAL_MAGIC]; simp only [CAL_VERSION]] <;> omega)]
    rw [if_pos]
    rw [show ([49, 76, 65, 67,
            0, 0, 1, 0,
            s % 256, s / 256 % 256, s / 65536 % 256, s / 16777216 % 256,
            t % 256, t / 256 % 256, t / 65536 % 256, t / 16777216 % 256] : List Nat) = bodyList s t from rfl]
    rw [← crcBody_span]
    omega

/-! ## Claims -/

/-- C2: for every pair (slope, tare), performing save(slope, tare) and then
load() on the resulting 20-byte record succeeds (magic, version, and CRC all
validate) and returns exactly the same (slope, tare) pair. -/

theorem C2_save_load_roundtrip (s t : Nat) (hs : s < 2 ^ 32) (ht : t < 2 ^ 32) :
    (saveCalibrationToEEPROM s t).length = 20 ∧
    loadCalibrationFromEEPROM (saveCalibrationToEEPROM s t) = some (s, t) := by
  refine ⟨save_length s t, ?_⟩
  rw [load_save, Nat.mod_eq_of_lt hs, Nat.mod_eq_of_lt ht]

theorem C2_save_load_roundtrip_witness :
    (saveCalibrationToEEPROM 990057071 5).length = 20 ∧
    loadCalibrationFromEEPROM (saveCalibrationToEEPROM 990057071 5) =
      some (990057071, 5) :=
  C2_save_load_roundtrip 990057071 5 (by decide) (by decide)

/-- C3: for every validly saved calibration record and every single-byte
modification of any of its 20 bytes, load() on the modified record reports
invalid, and on any validation failure load() performs no mutation: the
caller's outputs and the live calibration are left unchanged. -/

theorem C3_corruption_detected (s t i v : Nat) (hi : i < 20) (hv : v < 256)
    (hne : v ≠ (saveCalibrationToEEPROM s t).getD i 0) :
    loadCalibrationFromEEPROM ((saveCalibrationToEEPROM s t).set i v) = none ∧
    ∀ st : DevState, st.eeprom = (saveCalibrationToEEPROM s t).set i v →
      applyLoadAtBoot st = st := by
  have hload := load_save_set_none s t i v hi hv hne
  exact ⟨hload, fun st hst => by simp [applyLoadAtBoot, hst, hload]⟩

theorem C3_corruption_detected_witness :
    loadCalibrationFromEEPROM ((saveCalibrationToEEPROM 990057071 5).set 0 0) = none ∧
    applyLoadAtBoot (initialState ((saveCalibrationToEEPROM 990057071 5).set 0 0)) =
      initialState ((saveCalibrationToEEPROM 990057071 5).set 0 0) := by
  have h := C3_corruption_detected 990057071 5 0 0 (by decide) (by decide) (by decide)
  exact ⟨h.1, h.2 _ rfl⟩

theorem defSlopeBits_lt : defSlopeBits < 2 ^ 32 := by
  unfold defSlopeBits f32enc
  exact Nat.mod_lt _ (by norm_num)

/-- C4: at boot, load() is attempted; on success the returned slope/tare
become the live calibration; on failure the live calibration is set to the
defaults (slope 0.0020, tare 0) and immediately persisted, so that after a
cold boot CAL? returns the defaults and a subsequent reboot with no further
writes loads that same default pair from storage. -/

theorem C4_boot_policy (e : List Nat) :
    (∀ s t, loadCalibrationFromEEPROM e = some (s, t) →
      setup e = { initialState e with g_per_count := s, tare_offset := t }) ∧
    (loadCalibrationFromEEPROM e = none →
      setup e = { initialState e with
        g_per_count := defSlopeBits, tare_offset := 0,
        eeprom := saveCalibrationToEEPROM defSlopeBits 0 } ∧
      cmd_calq (setup e) = (setup e, [.okCal defSlopeBits 0]) ∧
      loadCalibrationFromEEPROM (setup e).eeprom = some (defSlopeBits, 0) ∧
      (setup ((setup e).eeprom)).g_per_count = defSlopeBits ∧
      (setup ((setup e).eeprom)).tare_offset = 0) := by
  constructor
  · intro s t h
    simp [setup, h]
  · intro h
    have h1 : setup e = { initialState e with
        g_per_count := defSlopeBits, tare_offset := 0,
        eeprom := saveCalibrationToEEPROM defSlopeBits 0 } := by
      simp [setup, h, resetCalibrationToDefaultsAndPersist]
    have h2 : loadCalibrationFromEEPROM (setup e).eeprom = some (defSlopeBits, 0) := by
      rw [h1]
      show loadCalibrationFromEEPROM (saveCalibrationToEEPROM defSlopeBits 0) = _
      rw [load_save, Nat.mod_eq_of_lt defSlopeBits_lt]
      norm_num
    refine ⟨h1, by rw [h1]; rfl, h2, ?_, ?_⟩ <;>
      · generalize hx : (setup e).eeprom = x at h2
        simp [setup, h2]

theorem C4_boot_policy_witness :
    setup (List.replicate 20 0) =
      { initialState (List.replicate 20 0) with
        g_per_count := defSlopeBits, tare_offset := 0,
        eeprom := saveCalibrationToEEPROM defSlopeBits 0 } ∧
    loadCalibrationFromEEPROM (setup (List.replicate 20 0)).eeprom =
      some (defSlopeBits, 0) := by
  have h := (C4_boot_policy (List.replicate 20 0)).2 (by decide)
  exact ⟨h.1, h.2.2.1⟩

/-- C5: every call of the edge handler increments pulses_total and sets
last_edge_time unconditionally; with a nonzero previous edge time,
dt = timestamp - prev (unsigned wraparound-safe) updates last_period exactly
when it exceeds the 100-unit glitch threshold (50-unit spacing leaves it
unchanged, 150-unit spacing sets it to 150). -/

theorem C5_tach_edge (st : DevState) (now : Nat) (hnow : now < 2 ^ 32) :
    (tach_isr st now).tach_pulses_total = (st.tach_pulses_total + 1) % 2 ^ 32 ∧
    (tach_isr st now).last_edge_us = now ∧
    (tach_isr st now).last_period_us =
      (if st.last_edge_us ≠ 0 ∧ 100 < (now + 2 ^ 32 - st.last_edge_us) % 2 ^ 32
       then (now + 2 ^ 32 - st.last_edge_us) % 2 ^ 32
       else st.last_period_us) ∧
    (tach_isr { st with last_edge_us := 200 } 250).last_period_us =
      st.last_period_us ∧
    (tach_isr { st with last_edge_us := 200 } 350).last_period_us = 150 := by
  have hmod : now % 2 ^ 32 = now := Nat.mod_eq_of_lt hnow
  refine ⟨?_, ?_, ?_, ?_, ?_⟩
  · simp only [tach_isr]
    split <;> first | rfl | (split <;> rfl)
  · simp only [tach_isr, hmod]
    split <;> first | rfl | (split <;> rfl)
  · simp only [tach_isr, hmod]
    by_cases h0 : st.last_edge_us ≠ 0
    · rw [if_pos h0]
      by_cases hdt : 100 < (now + 2 ^ 32 - st.last_edge_us) % 2 ^ 32
      · rw [if_pos hdt, if_pos ⟨h0, hdt⟩]
      · rw [if_neg hdt, if_neg (by tauto)]
    · rw [if_neg h0]
      rw [if_neg (by tauto)]
  · norm_num [tach_isr]
  · norm_num [tach_isr]

theorem C5_tach_edge_witness :
    (tach_isr (initialState (List.replicate 20 0)) 444).tach_pulses_total = 1 ∧
    (tach_isr (initialState (List.replicate 20 0)) 444).last_edge_us = 444 ∧
    (tach_isr (initialState (List.replicate 20 0)) 444).last_period_us =
      (if (initialState (List.replicate 20 0)).last_edge_us ≠ 0 ∧
          100 < (444 + 2 ^ 32 - (initialState (List.replicate 20 0)).last_edge_us) % 2 ^ 32
       then (444 + 2 ^ 32 - (initialState (List.replicate 20 0)).last_edge_us) % 2 ^ 32
       else (initialState (List.replicate 20 0)).last_period_us) ∧
    (tach_isr { initialState (List.replicate 20 0) with last_edge_us := 200 } 250).last_period_us =
      (initialState (List.replicate 20 0)).last_period_us ∧
    (tach_isr { initialState (List.replicate 20 0) with last_edge_us := 200 } 350).last_period_us =
      150 :=
  C5_tach_edge (initialState (List.replicate 20 0)) 444 (by decide)

/-- C6: compute_rpm returns 0 whenever last_period == 0 or ppr == 0;
otherwise it returns 60 / (last_period_in_seconds * ppr); in particular
last_period = 10000 with ppr = 2 yields rpm = 3000. -/

theorem C6_compute_rpm (p lp ppr : Nat) :
    compute_rpm ⟨p, lp⟩ ppr =
      (if lp = 0 ∨ ppr = 0 then 0
       else 60 / (((lp : ℚ) / 1000000) * (ppr : ℚ))) ∧
    compute_rpm ⟨p, 10000⟩ 2 = 3000 ∧
    compute_rpm ⟨p, 0⟩ ppr = 0 ∧
    compute_rpm ⟨p, lp⟩ 0 = 0 := by
  have key : ∀ lp2 ppr2 : Nat, compute_rpm ⟨p, lp2⟩ ppr2 =
      (if lp2 = 0 ∨ ppr2 = 0 then 0
       else 60 / (((lp2 : ℚ) / 1000000) * (ppr2 : ℚ))) := by
    intro lp2 ppr2
    by_cases h : lp2 = 0 ∨ ppr2 = 0
    · rw [if_pos h]
      unfold compute_rpm
      rw [if_pos h]
    · rw [if_neg h]
      push_neg at h
      have hlp : (0 : ℚ) < (lp2 : ℚ) / 1000000 := by
        have : (0 : ℚ) < (lp2 : ℚ) := by
          exact_mod_cast Nat.pos_of_ne_zero h.1
        positivity
      unfold compute_rpm
      rw [if_neg (by tauto)]
      rw [if_neg (by push_neg; exact hlp)]
      have hppr : ((ppr2 : ℚ)) ≠ 0 := by
        exact_mod_cast h.2
      field_simp
  refine ⟨key lp ppr, ?_, ?_, ?_⟩
  · rw [key 10000 2]
    norm_num
  · rw [key 0 ppr]
    simp
  · rw [key lp 0]
    simp

/-- C7: SETTIME, SETCAL and SETPPR with no argument return ERR 30, ERR 31
and ERR 32 respectively, SETPPR 0 returns ERR 33, and in every one of these
error cases no state is mutated. -/

theorem C7_missing_args (st : DevState) (env : Env) :
    handle_line st env (strBytes "SETTIME") = (st, [.err 30 "missing_unix_ms"]) ∧
    handle_line st env (strBytes "SETCAL") = (st, [.err 31 "missing_args"]) ∧
    handle_line st env (strBytes "SETPPR") = (st, [.err 32 "missing_ppr"]) ∧
    handle_line st env (strBytes "SETPPR 0") = (st, [.err 33 "invalid_ppr"]) :=
  ⟨rfl, rfl, rfl, rfl⟩

/-- C8: on a successful acquisition TARE sets live tare to the raw reading,
leaves the live slope unchanged, and persists (slope, raw); on acquisition
timeout it responds ERR 20 and leaves live calibration and the persisted
record unchanged. -/

theorem C8_tare (st : DevState) (m raw : Nat) :
    handle_line st ⟨m, some raw⟩ (strBytes "TARE") =
      ({ st with tare_offset := raw % 2 ^ 32,
                 eeprom := saveCalibrationToEEPROM st.g_per_count (raw % 2 ^ 32) },
       [.okTare]) ∧
    handle_line st ⟨m, none⟩ (strBytes "TARE") = (st, [.err 20 "HX711_timeout"]) :=
  ⟨rfl, rfl⟩

/-- C9: SETTIME with argument wall_ms sets the epoch base to
wall_ms - monotonic_ms_now(); reported timestamps are base + monotonic, so
SETTIME 1000000 followed by a 250 ms advance makes LOAD?/SPEED? report
ts = 1000250; before any SETTIME the base is 0 and timestamps equal the raw
monotonic clock. -/

theorem C9_settime_timestamps (st : DevState) (env : Env) (tok : List Nat)
    (rest : List (List Nat)) (m raw : Nat) (e : List Nat)
    (hm : m + 250 < 2 ^ 32) :
    cmd_settime (tok :: rest) st env =
      ({ st with epoch_base_ms :=
          (strtoull10 tok + 2 ^ 64 - env.millis % 2 ^ 32) % 2 ^ 64 },
       [.okSettime]) ∧
    ((handle_line
        ((handle_line st ⟨m, none⟩ (strBytes "SETTIME 1000000")).1)
        ⟨m + 250, some raw⟩ (strBytes "LOAD?")).2.map Response.tsOf =
      [some 1000250]) ∧
    ((handle_line
        ((handle_line st ⟨m, none⟩ (strBytes "SETTIME 1000000")).1)
        ⟨m + 250, some raw⟩ (strBytes "SPEED?")).2.map Response.tsOf =
      [some 1000250]) ∧
    (setup e).epoch_base_ms = 0 ∧
    ((handle_line (setup e) ⟨m, some raw⟩ (strBytes "LOAD?")).2.map Response.tsOf =
      [some m]) := by
  have hmm : m % 2 ^ 32 = m := Nat.mod_eq_of_lt (by omega)
  have hm250 : (m + 250) % 2 ^ 32 = m + 250 := Nat.mod_eq_of_lt hm
  have hst1 : (handle_line st ⟨m, none⟩ (strBytes "SETTIME 1000000")).1 =
      { st with epoch_base_ms := (1000000 + 2 ^ 64 - m % 2 ^ 32) % 2 ^ 64 } := rfl
  have hts : ∀ st2 : DevState, ∀ mm rr : Nat,
      (handle_line st2 ⟨mm, some rr⟩ (strBytes "LOAD?")).2.map Response.tsOf =
        [some (now_unix_ms st2 ⟨mm, some rr⟩)] := fun _ _ _ => rfl
  have hts2 : ∀ st2 : DevState, ∀ mm rr : Nat,
      (handle_line st2 ⟨mm, some rr⟩ (strBytes "SPEED?")).2.map Response.tsOf =
        [some (now_unix_ms st2 ⟨mm, some rr⟩)] := fun _ _ _ => rfl
  have hsetup0 : (setup e).epoch_base_ms = 0 := by
    unfold setup
    cases h : loadCalibrationFromEEPROM e with
    | none => rfl
    | some v => cases v with
      | mk s t => rfl
  refine ⟨rfl, ?_, ?_, hsetup0, ?_⟩
  · rw [hst1, hts]
    unfold now_unix_ms
    simp only []
    congr 1
    congr 1
    simp only [hm250]
    omega
  · rw [hst1, hts2]
    unfold now_unix_ms
    simp only []
    congr 1
    congr 1
    simp only [hm250]
    omega
  · rw [hts]
    unfold now_unix_ms
    rw [hsetup0]
    simp only [hmm]
    norm_num
    omega

theorem C9_settime_timestamps_witness :
    (handle_line
        ((handle_line (initialState (List.replicate 20 0)) ⟨0, none⟩
            (strBytes "SETTIME 1000000")).1)
        ⟨0 + 250, some 7⟩ (strBytes "LOAD?")).2.map Response.tsOf =
      [some 1000250] :=
  (C9_settime_timestamps (initialState (List.replicate 20 0)) ⟨0, none⟩
    [] [] 0 7 (List.replicate 20 0) (by decide)).2.1

/-- C10: SETCAL performs no numeric validation beyond presence: any line
with two whitespace-delimited tokens after SETCAL answers OK SETCAL and
applies and persists the parsed values; a non-numeric token parses to 0
(SETCAL x y persists slope bits 0 and tare 0); ERR 31 arises exactly when
fewer than two tokens are present. -/

theorem C10_setcal_no_validation (st : DevState) (env : Env)
    (a b c : List Nat) (rest : List (List Nat)) :
    cmd_setcal (a :: b :: rest) st =
      ({ st with g_per_count := atofBits a, tare_offset := atol10 b,
                 eeprom := saveCalibrationToEEPROM (atofBits a) (atol10 b) },
       [.okSetcal]) ∧
    cmd_setcal [] st = (st, [.err 31 "missing_args"]) ∧
    cmd_setcal [c] st = (st, [.err 31 "missing_args"]) ∧
    handle_line st env (strBytes "SETCAL x y") =
      ({ st with g_per_count := 0, tare_offset := 0,
                 eeprom := saveCalibrationToEEPROM 0 0 },
       [.okSetcal]) :=
  ⟨rfl, rfl, rfl, rfl⟩

set_option maxRecDepth 10000 in

/-- C1 (violated by the code): after the 128th byte of an unterminated
line, `loop` emits ERR 11 and resets `idx`, but keeps accumulating the
remaining bytes of the over-long line; when the terminator of the next
valid command arrives, the residue plus that command is dispatched as one
garbage line.  For 200 bytes of 'A' followed by "PING\r\n" the firmware
answers ERR 11 then ERR 10 — the suffix IS dispatched and the valid PING
is not processed. -/

theorem C1_overflow_dispatches_suffix :
    (feedBytes ⟨0, none⟩ (setup (List.replicate 20 0), [])
        (List.replicate 200 65 ++ strBytes "PING" ++ [13, 10])).2 =
      [.err 11 "line_too_long", .err 10 "unknown_command"] := by
  decide

